import Mathlib

/-!
Verification of the Citra emulator core (kernel handle table, CPU tick
accounting, shared-page time refresh, system controller run loop) against
its natural-language specification.  Each C++ function used by a claim is
shallowly embedded as an executable Lean definition; machine integers are
modelled as `Nat`/`Int` with explicit `% 2^32` where 32-bit wraparound
matters.
-/

namespace Citra

/-! ## Kernel handle table (src/core/hle/kernel/handle_table.cpp)

`Handle` is a 32-bit value (`u32`); we model it as `Nat` kept below `2^32`
by taking `% 2^32` exactly where the C++ `u32` arithmetic wraps.  Kernel
objects are identified by an abstract id (`Nat`); the table maps handles to
object ids with `std::map` semantics (at most one entry per key;
`emplace` inserts only when the key is absent; `erase` removes the key). -/

/-- A handle value (C++ `u32`). -/
abbrev Handle := Nat

/-- An abstract kernel object identity (stands for the `Object*` the
`SharedPtr<Object>` points to). -/
abbrev ObjId := Nat

/-- Modelled from the spec: the two reserved pseudo-handle constants
(`CurrentThread`, `CurrentProcess`).  Their numeric values come from the
3DS kernel ABI; the header defining them is not under src/.  The claims
only need that they are fixed constants far above small counter values. -/
def CurrentThread : Handle := 0xFFFF8000

/-- Modelled from the spec: the reserved `CurrentProcess` pseudo-handle,
companion of `CurrentThread`. -/
def CurrentProcess : Handle := 0xFFFF8001

/-- Modelled from the spec: kernel result codes as returned to guest code
(`RESULT_SUCCESS` and `ERR_INVALID_HANDLE` from kernel/errors.h, which is
not under src/); only their distinctness matters to the claims. -/
inductive ResultCode where
  | RESULT_SUCCESS
  | ERR_INVALID_HANDLE
deriving DecidableEq, Repr

/-- The handle table state: `objects` is the `std::map<Handle,
SharedPtr<Object>>` (as an association list with unique keys) and
`handle_counter` the `u32` allocation counter. -/
structure HandleTable where
  objects : List (Handle × ObjId)
  handle_counter : Nat
deriving DecidableEq, Repr

/-- The execution context `GetGeneric` consults for pseudo-handles:
`GetCurrentThread()` and the current process of the kernel, each possibly null. -/
structure KernelCtx where
  current_thread : Option ObjId
  current_process : Option ObjId
deriving DecidableEq, Repr

namespace HandleTable

/-- A fresh table, as produced by the constructor (which calls `Clear()`);
the counter starts at zero. -/
def fresh : HandleTable := ⟨[], 0⟩

/-- `bool HandleTable::IsValid(Handle) const`: key membership in `objects`. -/
def IsValid (t : HandleTable) (h : Handle) : Bool :=
  (t.objects.lookup h).isSome

/-- `Handle HandleTable::Create(SharedPtr<Object>)`:
`return objects.emplace(++handle_counter, std::move(obj)).first->first;`.
The `u32` counter is pre-incremented (wrapping mod `2^32`, with no
exhaustion check); `emplace` inserts only if the new counter value is not
already a key, and the returned handle is that counter value either way. -/
def Create (t : HandleTable) (obj : ObjId) : Handle × HandleTable :=
  let h := (t.handle_counter + 1) % 2^32
  if (t.objects.lookup h).isSome then
    (h, { t with handle_counter := h })
  else
    (h, { objects := (h, obj) :: t.objects, handle_counter := h })

/-- `SharedPtr<Object> HandleTable::GetGeneric(Handle) const`: the two
pseudo-handles resolve dynamically through the execution context; other
handles are looked up in the table (null when absent). -/
def GetGeneric (ctx : KernelCtx) (t : HandleTable) (h : Handle) : Option ObjId :=
  if h = CurrentThread then ctx.current_thread
  else if h = CurrentProcess then ctx.current_process
  else t.objects.lookup h

/-- `ResultVal<Handle> HandleTable::Duplicate(Handle)`: resolve via
`GetGeneric`; absent handles yield `ERR_INVALID_HANDLE`, otherwise a new
handle is created for the same object. -/
def Duplicate (ctx : KernelCtx) (t : HandleTable) (h : Handle) :
    Except ResultCode (Handle × HandleTable) :=
  match GetGeneric ctx t h with
  | none => .error .ERR_INVALID_HANDLE
  | some obj => .ok (Create t obj)

/-- `ResultCode HandleTable::Close(Handle)`: invalid handles fail with
`ERR_INVALID_HANDLE`; otherwise the entry is erased. -/
def Close (t : HandleTable) (h : Handle) : ResultCode × HandleTable :=
  if t.IsValid h then
    (.RESULT_SUCCESS, { t with objects := t.objects.filter (fun e => e.1 ≠ h) })
  else
    (.ERR_INVALID_HANDLE, t)

/-- Number of table entries referencing object `x`: the handle-held share
of the `SharedPtr` reference count of the object.  When it reaches zero the
table holds no reference and, absent internal kernel references, the
object is destroyed. -/
def refsTo (t : HandleTable) (x : ObjId) : Nat :=
  (t.objects.filter (fun e => e.2 = x)).length

/-- The table after `n` sequential `Create` calls on a fresh table (the
created object identities are irrelevant to the returned handles). -/
def tableAfter : Nat → HandleTable
  | 0 => fresh
  | n + 1 => (Create (tableAfter n) 0).2

/-- The handle returned by `Create` call number `n + 1` in that sequence. -/
def nthHandle (n : Nat) : Handle := (Create (tableAfter n) 0).1

end HandleTable

/-! ## CPU tick accounting (src/core/cpu/cpu.cpp)

The `UserCallbacks` of the JIT report executed cycles through `AddTicks` and may
override the reported amount depending on `Settings::values.ticks_mode`
(`Accurate`, `Auto`, `Custom`; settings.h is not under src/, the three
constructors are exactly the values `SyncSettings` switches over). -/

/-- The ticks-accuracy modes `SyncSettings` switches over. -/
inductive TicksMode where
  | Accurate
  | Auto
  | Custom
deriving DecidableEq, Repr

/-- The settings `SyncSettings` reads: `Settings::values.ticks_mode` and the
user-configured constant `Settings::values.ticks`. -/
structure TickSettings where
  ticks_mode : TicksMode
  ticks : Nat
deriving DecidableEq, Repr

/-- The static per-title override table `custom_ticks_map` from cpu.cpp,
mapping a 64-bit program (title) id to a tick constant; entries copied
verbatim. -/
def custom_ticks_map : List (Nat × Nat) :=
  [(0x000400000008C300, 570),   (0x000400000008C400, 570),   (0x000400000008C500, 570),
   (0x0004000000126A00, 570),   (0x0004000000126B00, 570),   (0x0004000200120C01, 570),
   (0x000400000F700E00, 18000), (0x0004000000055D00, 17000), (0x0004000000055E00, 17000),
   (0x000400000011C400, 17000), (0x000400000011C500, 17000), (0x0004000000164800, 17000),
   (0x0004000000175E00, 17000), (0x00040000001B5000, 17000), (0x00040000001B5100, 17000),
   (0x00040000001BC500, 27000), (0x00040000001BC600, 27000), (0x000400000016E100, 27000),
   (0x0004000000055F00, 27000), (0x0004000000076500, 27000), (0x0004000000076400, 27000),
   (0x00040000000D0000, 27000), (0x0004000000126100, 6000),  (0x0004000000126300, 6000),
   (0x000400000011D700, 6000)]

/-- The two member fields `UserCallbacks::SyncSettings` computes:
`custom_ticks` and `use_custom_ticks`. -/
structure TickOverride where
  custom_ticks : Nat
  use_custom_ticks : Bool
deriving DecidableEq, Repr

/-- `void UserCallbacks::SyncSettings()`: every `switch` branch overwrites
both fields, so only the per-mode assignments remain.  `program_id` is the
id read by `ReadProgramID` (zero when the read fails). -/
def SyncSettings (s : TickSettings) (program_id : Nat) : TickOverride :=
  match s.ticks_mode with
  | .Custom => ⟨s.ticks, true⟩
  | .Auto =>
    match custom_ticks_map.lookup program_id with
    | some v => ⟨v, true⟩
    | none => ⟨0, false⟩
  | .Accurate => ⟨0, false⟩

/-- `void UserCallbacks::AddTicks(std::uint64_t ticks)` forwards
`use_custom_ticks ? custom_ticks : ticks` to `CoreTiming::AddTicks`; this
is the amount actually reported to the virtual clock. -/
def AddTicksAmount (o : TickOverride) (ticks : Nat) : Nat :=
  if o.use_custom_ticks then o.custom_ticks else ticks

/-- Modelled from the spec: `CoreTiming::GetDowncount()` (core_timing is
not under src/) returns `max(0, next_due_tick - current_tick)` per the
contract the spec gives for the virtual clock. -/
def GetDowncount (next_due_tick current_tick : Int) : Int :=
  max 0 (next_due_tick - current_tick)

/-- `std::uint64_t UserCallbacks::GetTicksRemaining()`:
`s64 ticks{system.CoreTiming().GetDowncount()}; return
static_cast<u64>(ticks <= 0 ? 0 : ticks);` — the downcount clamped to be
non-negative before it is handed to the translator. -/
def GetTicksRemaining (downcount : Int) : Int :=
  if downcount ≤ 0 then 0 else downcount

/-! ## Shared page (src/core/hle/shared_page.cpp)

The guest-visible page holds two `DateTime` slots and a `u32_le`
generation counter `date_time_counter` (layout from
src/core/hle/kernel/shared_page.h).  `GetInitTime` captures the boot-time
origin; `UpdateTimeCallback` refreshes the inactive slot hourly. -/

/-- How the boot-time clock origin is chosen
(`Settings::values.init_clock`). -/
inductive InitClock where
  | SystemTime
  | FixedTime
deriving DecidableEq, Repr

/-- `static std::time_t GetInitTime()`: in `SystemTime` mode the host
`time_t` (seconds) gets `60 * 60 * 1000` added whenever `localtime`
succeeds and reports daylight saving (`tm_isdst > 0`); in `FixedTime` mode
the configured `Settings::values.init_time` is returned.  `isdst` is
`none` when `localtime` returns null. -/
def GetInitTime (init_clock : InitClock) (now_time_t : Int) (isdst : Option Int)
    (init_time : Int) : Int :=
  match init_clock with
  | .SystemTime =>
    if (match isdst with | some d => decide (d > 0) | none => false) then
      now_time_t + 60 * 60 * 1000
    else
      now_time_t
  | .FixedTime => init_time

/-- Modelled from the spec: `BASE_CLOCK_RATE_ARM11`, the fixed
tick-to-second coefficient (ticks per second) from core_timing.h, which is
not under src/. -/
def BASE_CLOCK_RATE_ARM11 : Nat := 268123480

/-- Modelled from the spec: `msToCycles(ms)` from core_timing.h (not under
src/) converts guest milliseconds to ticks through the fixed coefficient. -/
def msToCycles (ms : Nat) : Nat := BASE_CLOCK_RATE_ARM11 * ms / 1000

/-- `u64 Module::GetSystemTime()`: `init_time` plus elapsed virtual
microseconds scaled to seconds, re-based from the Jan 1 2000 auxiliary
epoch (`epoch`, the host-`mktime` value for that date) onto the 3DS
Jan 1 1900 millisecond epoch. -/
def GetSystemTime (init_time epoch : Int) (global_time_us : Nat) : Int :=
  let now : Int := init_time + (global_time_us : Int) / 1000000
  let console_time : Int := 3155673600000
  if now > epoch then console_time + (now - epoch) * 1000 else console_time

/-- One `DateTime` slot of the shared page (all fields `u64_le`). -/
structure DateTime where
  date_time : Int
  update_tick : Nat
  tick_to_second_coefficient : Nat
  tick_offset : Nat
deriving DecidableEq, Repr

/-- The shared-page fields touched by the refresh callback: the `u32_le`
generation counter and the two timestamp slots. -/
structure SharedPageState where
  date_time_counter : Nat
  date_time_0 : DateTime
  date_time_1 : DateTime
deriving DecidableEq, Repr

/-- Slot `0` or slot `1` of the page, by index. -/
def SharedPageState.slot (sp : SharedPageState) (i : Nat) : DateTime :=
  if i = 0 then sp.date_time_0 else sp.date_time_1

/-- Modelled from the spec: guest code reads "the slot indicated by the
current generation parity" — slot `0` when `date_time_counter` is even,
slot `1` when odd (the guest-side reader is not part of this repository;
this is the convention under which the freshly written slot becomes the
selected one right after the counter increment). -/
def selectedSlotIndex (counter : Nat) : Nat := counter % 2

/-- The slot index `UpdateTimeCallback` writes:
`date_time_counter % 2 ? date_time_0 : date_time_1`. -/
def writtenSlotIndex (counter : Nat) : Nat :=
  if counter % 2 = 1 then 0 else 1

/-- Inputs of one refresh-callback invocation: the boot-time origin, the
host epoch, the elapsed virtual time (`GetGlobalTimeUs`) and tick count
(`GetTicks`) at the moment the callback runs. -/
structure TimeEnv where
  init_time : Int
  epoch : Int
  global_time_us : Nat
  current_tick : Nat
deriving DecidableEq, Repr

/-- `void Module::UpdateTimeCallback(u64 userdata, int cycles_late)`:
fills the slot chosen by the current counter parity with the freshly
computed time, increments the `u32` counter, and re-arms itself
`msToCycles(60 * 60 * 1000) - cycles_late` ticks in the future.  Returns
the new page state and the scheduled delay. -/
def UpdateTimeCallback (env : TimeEnv) (sp : SharedPageState) (cycles_late : Int) :
    SharedPageState × Int :=
  let dt : DateTime :=
    { date_time := GetSystemTime env.init_time env.epoch env.global_time_us
      update_tick := env.current_tick
      tick_to_second_coefficient := BASE_CLOCK_RATE_ARM11
      tick_offset := 0 }
  let sp' :=
    if sp.date_time_counter % 2 = 1 then { sp with date_time_0 := dt }
    else { sp with date_time_1 := dt }
  ({ sp' with date_time_counter := (sp.date_time_counter + 1) % 2^32 },
   (msToCycles (60 * 60 * 1000) : Int) - cycles_late)

/-! ## System controller (src/core/core.cpp, src/core/core.h)

`System::Load`, `System::Init`, `System::Shutdown` and `System::RunLoop`
are embedded as pure transitions on an explicit system state.  Each owned
subsystem pointer becomes a `Bool` (allocated or null); the loader is a
record of the result codes its two fallible operations produce for the
given file. -/

/-- `Core::System::ResultStatus` (core.h), constructors in declaration
order. -/
inductive ResultStatus where
  | Success
  | ErrorNotInitialized
  | ErrorGetLoader
  | ErrorSystemMode
  | ErrorLoader
  | ErrorLoader_ErrorEncrypted
  | ErrorLoader_ErrorInvalidFormat
  | ErrorSystemFiles
  | ErrorVideoCore
  | ErrorVideoCore_ErrorGenericDrivers
  | ErrorVideoCore_ErrorBelowGL33
  | ShutdownRequested
  | FatalError
deriving DecidableEq, Repr

/-- `Loader::ResultStatus` outcomes distinguished by `System::Load`
(`Success`, `ErrorEncrypted`, `ErrorInvalidFormat`; everything else falls
into the `default` switch branches). -/
inductive LoaderResult where
  | Success
  | ErrorEncrypted
  | ErrorInvalidFormat
  | ErrorOther
deriving DecidableEq, Repr

/-- The loader obtained for a file path: the result of
`LoadKernelSystemMode()` and of `Load(process)` for that image. -/
structure AppLoader where
  system_mode_result : LoaderResult
  load_result : LoaderResult
deriving DecidableEq, Repr

/-- `Core::System` state: subsystem pointers as allocation flags, the
run/request flags, and the last stored status. -/
structure SysState where
  app_loader : Bool
  kernel : Bool
  cpu_core : Bool
  dsp_core : Bool
  service_manager : Bool
  running : Bool
  dsp_output_allowed : Bool
  current_thread : Bool
  shutdown_requested : Bool
  reschedule_pending : Bool
  status : ResultStatus
deriving DecidableEq, Repr

namespace SysState

/-- The freshly constructed (uninitialized) system: all subsystem pointers
null, no flags set. -/
def initial : SysState :=
  ⟨false, false, false, false, false, false, false, false, false, false, .Success⟩

/-- `bool System::IsPoweredOn() const { return cpu_core != nullptr; }` -/
def IsPoweredOn (s : SysState) : Bool := s.cpu_core

/-- `void System::Shutdown()`: resets the kernel, service manager, DSP,
CPU and loader (the `running` flag is not touched). -/
def Shutdown (s : SysState) : SysState :=
  { s with kernel := false, service_manager := false, dsp_core := false,
           cpu_core := false, app_loader := false }

/-- `System::ResultStatus System::Init(...)`: allocates the kernel, CPU,
DSP and service manager, clears the request flags, then initializes the
video core; on video failure its status is returned (with the already
allocated subsystems still live — `Load` shuts them down), otherwise
`SetRunning(true)` is called and `Success` returned.  `video_result` is
what `VideoCore::Init` returns. -/
def Init (s : SysState) (video_result : ResultStatus) : ResultStatus × SysState :=
  let s := { s with kernel := true, cpu_core := true, dsp_core := true,
                    service_manager := true, shutdown_requested := false }
  if video_result ≠ .Success then (video_result, s)
  else (.Success, { s with running := true })

/-- `System::ResultStatus System::Load(Frontend&, const std::string&)`:
obtain a loader (`none` models `GetLoader` failing), determine the kernel
system mode (mapping loader errors to `ErrorLoader_*`/`ErrorSystemMode`
without any teardown), run `Init` (shutting down on failure), then load
the image (shutting down and mapping errors on failure). -/
def Load (s : SysState) (loader : Option AppLoader) (video_result : ResultStatus) :
    ResultStatus × SysState :=
  match loader with
  | none => (.ErrorGetLoader, s)
  | some ld =>
    let s := { s with app_loader := true }
    match ld.system_mode_result with
    | .ErrorEncrypted => (.ErrorLoader_ErrorEncrypted, s)
    | .ErrorInvalidFormat => (.ErrorLoader_ErrorInvalidFormat, s)
    | .ErrorOther => (.ErrorSystemMode, s)
    | .Success =>
      let (init_result, s) := Init s video_result
      if init_result ≠ .Success then (init_result, Shutdown s)
      else
        match ld.load_result with
        | .ErrorEncrypted => (.ErrorLoader_ErrorEncrypted, Shutdown s)
        | .ErrorInvalidFormat => (.ErrorLoader_ErrorInvalidFormat, Shutdown s)
        | .ErrorOther => (.ErrorLoader, Shutdown s)
        | .Success => (.Success, { s with status := .Success })

/-- `System::ResultStatus System::RunLoop()`: one iteration of the run
loop.  Returns the result, the post state, and whether `cpu_core->Run()`
was invoked during the iteration.  The pause wait (`running_cv.wait`) only
blocks and then falls through, so it leaves the modelled state unchanged;
the audio-output-disabled branch returns `Success` early, before the
shutdown check; otherwise the iteration idles or runs the CPU, reschedules,
and finally consumes a pending shutdown request
(`shutdown_requested.exchange(false)`), returning `ShutdownRequested`. -/
def RunLoop (s : SysState) : ResultStatus × SysState × Bool :=
  let s := { s with status := .Success }
  if !s.cpu_core then (.ErrorNotInitialized, s, false)
  else if !s.dsp_output_allowed then (.Success, s, false)
  else
    let (s, did_run) :=
      if !s.current_thread then ({ s with reschedule_pending := true }, false)
      else (s, true)
    let s := { s with reschedule_pending := false }
    if s.shutdown_requested then
      (.ShutdownRequested, { s with shutdown_requested := false }, did_run)
    else
      (s.status, s, did_run)

end SysState

/-! ## Helper lemmas -/

theorem two_pow_32_eq : (2 : Nat)^32 = 4294967296 := by norm_num

namespace HandleTable

theorem create_fst (t : HandleTable) (x : ObjId) :
    (Create t x).1 = (t.handle_counter + 1) % 2^32 := by
  simp only [Create]
  split <;> rfl

theorem create_counter (t : HandleTable) (x : ObjId) :
    (Create t x).2.handle_counter = (t.handle_counter + 1) % 2^32 := by
  simp only [Create]
  split <;> rfl

theorem counter_tableAfter (n : Nat) :
    (tableAfter n).handle_counter = n % 2^32 := by
  induction n with
  | zero => rfl
  | succ n ih =>
    simp only [tableAfter]
    rw [create_counter, ih, two_pow_32_eq]
    omega

theorem nthHandle_eq (n : Nat) : nthHandle n = (n + 1) % 2^32 := by
  simp only [nthHandle]
  rw [create_fst, counter_tableAfter, two_pow_32_eq]
  show (n % 4294967296 + 1) % 4294967296 = (n + 1) % 4294967296
  omega

end HandleTable

/-! ## Claim theorems -/

/-- C1, counterexample.  With the counter at `2^32 - 1` (the handle space
exhausted), `Create` does not fail: it wraps the counter to `0` and
returns handle `0`; and when the wrapped value collides with a live handle
(`0` mapped to object `5`), `Create` leaves the table unchanged and
returns the already-live handle value `0` again — refuting "detects this
and fails fatally instead of returning a wrapped or duplicate handle". -/
theorem C1_counterexample :
    (HandleTable.Create ⟨[], 2^32 - 1⟩ 7).1 = 0 ∧
    (HandleTable.Create ⟨[], 2^32 - 1⟩ 7).2.handle_counter = 0 ∧
    HandleTable.IsValid ⟨[(0, 5)], 2^32 - 1⟩ 0 = true ∧
    (HandleTable.Create ⟨[(0, 5)], 2^32 - 1⟩ 7).1 = 0 ∧
    (HandleTable.Create ⟨[(0, 5)], 2^32 - 1⟩ 7).2.objects = [(0, 5)] := by
  refine ⟨?_, ?_, ?_, ?_, ?_⟩ <;> decide

/-- C1, amended: `HandleTable::Create` allocates the next handle value by
pre-incrementing the 32-bit counter; values strictly increase while the
counter stays below `2^32 - 1`, but there is no exhaustion detection: the
increment wraps modulo `2^32`, and when the wrapped value is already a
live key the table is left unchanged and the existing handle value is
returned a second time. -/
theorem C1_create_counter_unchecked (t : HandleTable) (x : ObjId) :
    (HandleTable.Create t x).1 = (t.handle_counter + 1) % 2^32 ∧
    (HandleTable.Create t x).2.handle_counter = (t.handle_counter + 1) % 2^32 ∧
    (t.handle_counter + 1 < 2^32 → t.handle_counter < (HandleTable.Create t x).1) ∧
    (HandleTable.IsValid t ((t.handle_counter + 1) % 2^32) = true →
      (HandleTable.Create t x).2.objects = t.objects) := by
  refine ⟨HandleTable.create_fst t x, HandleTable.create_counter t x, ?_, ?_⟩
  · intro h
    rw [HandleTable.create_fst, Nat.mod_eq_of_lt h]
    omega
  · intro h
    simp only [HandleTable.IsValid] at h
    simp only [HandleTable.Create, h, if_true]

/-- C1, witness for the amended theorem at a concrete table (counter `4`,
handle `5` live). -/
theorem C1_witness :
    4 + 1 < 2^32 ∧
    HandleTable.IsValid ⟨[(5, 9)], 4⟩ ((4 + 1) % 2^32) = true ∧
    (HandleTable.Create ⟨[(5, 9)], 4⟩ 3).1 = (4 + 1) % 2^32 ∧
    (4 < (HandleTable.Create ⟨[(5, 9)], 4⟩ 3).1) ∧
    (HandleTable.Create ⟨[(5, 9)], 4⟩ 3).2.objects = [(5, 9)] :=
  ⟨by decide, by decide, (C1_create_counter_unchecked ⟨[(5, 9)], 4⟩ 3).1,
   (C1_create_counter_unchecked ⟨[(5, 9)], 4⟩ 3).2.2.1 (by decide),
   (C1_create_counter_unchecked ⟨[(5, 9)], 4⟩ 3).2.2.2 (by decide)⟩

/-- C2: end-to-end handle lifecycle for any object `X` (id `x`) and any
execution context.  From a fresh table: `Create` returns `h1 = 1`;
`Duplicate(h1)` succeeds with `h2 = 2 ≠ h1`; `Close(h1)` succeeds; then
`GetGeneric(h1)` is null while `GetGeneric(h2)` still resolves to `X`;
`Close(h2)` succeeds and afterwards the table holds no reference to `X`
(the handle-held share of its reference count is zero, so with no internal
reference left the object is destroyed). -/
theorem C2_handle_lifecycle (x : ObjId) (ctx : KernelCtx) :
    HandleTable.Create HandleTable.fresh x = (1, ⟨[(1, x)], 1⟩) ∧
    HandleTable.Duplicate ctx ⟨[(1, x)], 1⟩ 1 = .ok (2, ⟨[(2, x), (1, x)], 2⟩) ∧
    (2 : Handle) ≠ 1 ∧
    HandleTable.Close ⟨[(2, x), (1, x)], 2⟩ 1 = (.RESULT_SUCCESS, ⟨[(2, x)], 2⟩) ∧
    HandleTable.GetGeneric ctx ⟨[(2, x)], 2⟩ 1 = none ∧
    HandleTable.GetGeneric ctx ⟨[(2, x)], 2⟩ 2 = some x ∧
    HandleTable.Close ⟨[(2, x)], 2⟩ 2 = (.RESULT_SUCCESS, ⟨[], 2⟩) ∧
    HandleTable.refsTo ⟨[], 2⟩ x = 0 := by
  refine ⟨rfl, rfl, by decide, rfl, rfl, rfl, rfl, rfl⟩

/-- C3: the amount `UserCallbacks::AddTicks` reports to the virtual clock
is the executed cycle count in `Accurate` mode, the user-configured
constant in `Custom` mode, and in `Auto` mode the per-title constant from
`custom_ticks_map` when the running title id is present there (the raw
cycle count otherwise). -/
theorem C3_effective_ticks (ticks pid cycles : Nat) :
    AddTicksAmount (SyncSettings ⟨.Accurate, ticks⟩ pid) cycles = cycles ∧
    AddTicksAmount (SyncSettings ⟨.Custom, ticks⟩ pid) cycles = ticks ∧
    AddTicksAmount (SyncSettings ⟨.Auto, ticks⟩ pid) cycles =
      (custom_ticks_map.lookup pid).getD cycles := by
  refine ⟨rfl, rfl, ?_⟩
  cases h : custom_ticks_map.lookup pid <;>
    simp [SyncSettings, AddTicksAmount, h]

/-- C4: one invocation of `Module::UpdateTimeCallback` writes the freshly
computed wall-clock time (`GetSystemTime`, the boot origin plus elapsed
virtual time, with the fixed tick-to-second coefficient recorded) into
exactly the timestamp slot not selected by the current generation-counter
parity, leaves the selected slot untouched, increments the generation
counter by exactly one, and re-schedules itself one guest hour minus its
own lateness later. -/
theorem C4_refresh (env : TimeEnv) (sp : SharedPageState) (late : Int)
    (hc : sp.date_time_counter + 1 < 2^32) :
    writtenSlotIndex sp.date_time_counter ≠ selectedSlotIndex sp.date_time_counter ∧
    (UpdateTimeCallback env sp late).1.slot (writtenSlotIndex sp.date_time_counter) =
      ⟨GetSystemTime env.init_time env.epoch env.global_time_us, env.current_tick,
       BASE_CLOCK_RATE_ARM11, 0⟩ ∧
    (UpdateTimeCallback env sp late).1.slot (selectedSlotIndex sp.date_time_counter) =
      sp.slot (selectedSlotIndex sp.date_time_counter) ∧
    (UpdateTimeCallback env sp late).1.date_time_counter = sp.date_time_counter + 1 ∧
    (UpdateTimeCallback env sp late).2 = (msToCycles (60 * 60 * 1000) : Int) - late := by
  have hc' : sp.date_time_counter + 1 < 4294967296 := by rw [two_pow_32_eq] at hc; exact hc
  rcases Nat.mod_two_eq_zero_or_one sp.date_time_counter with h | h <;>
    simp [UpdateTimeCallback, writtenSlotIndex, selectedSlotIndex, SharedPageState.slot, h,
          Nat.mod_eq_of_lt hc']

/-- C4, witness at the boot-time invocation (counter `0`, zeroed page and
environment, no lateness). -/
theorem C4_witness :
    0 + 1 < 2^32 ∧
    (writtenSlotIndex 0 ≠ selectedSlotIndex 0 ∧
     (UpdateTimeCallback ⟨0, 0, 0, 0⟩ ⟨0, ⟨0, 0, 0, 0⟩, ⟨0, 0, 0, 0⟩⟩ 0).1.slot
        (writtenSlotIndex 0) = ⟨GetSystemTime 0 0 0, 0, BASE_CLOCK_RATE_ARM11, 0⟩ ∧
     (UpdateTimeCallback ⟨0, 0, 0, 0⟩ ⟨0, ⟨0, 0, 0, 0⟩, ⟨0, 0, 0, 0⟩⟩ 0).1.slot
        (selectedSlotIndex 0) =
       (⟨0, ⟨0, 0, 0, 0⟩, ⟨0, 0, 0, 0⟩⟩ : SharedPageState).slot (selectedSlotIndex 0) ∧
     (UpdateTimeCallback ⟨0, 0, 0, 0⟩ ⟨0, ⟨0, 0, 0, 0⟩, ⟨0, 0, 0, 0⟩⟩ 0).1.date_time_counter =
       0 + 1 ∧
     (UpdateTimeCallback ⟨0, 0, 0, 0⟩ ⟨0, ⟨0, 0, 0, 0⟩, ⟨0, 0, 0, 0⟩⟩ 0).2 =
       (msToCycles (60 * 60 * 1000) : Int) - 0) :=
  ⟨by decide, C4_refresh ⟨0, 0, 0, 0⟩ ⟨0, ⟨0, 0, 0, 0⟩, ⟨0, 0, 0, 0⟩⟩ 0 (by decide)⟩

/-- C5, counterexample.  In a fully running state with the
shutdown-requested flag already set at the start of the iteration, the run
loop still invokes `cpu_core->Run()` during that iteration (third
component `true`) before observing the flag — refuting "no further Run()
call on the CPU execution unit occurs after the flag is set".  Moreover,
in an iteration where audio output is disallowed, the loop returns
`Success` with the flag still pending, refuting "the run loop observes it
within the current iteration". -/
theorem C5_counterexample :
    (⟨true, true, true, true, true, true, true, true, true, false,
        .Success⟩ : SysState).shutdown_requested = true ∧
    (SysState.RunLoop
        ⟨true, true, true, true, true, true, true, true, true, false, .Success⟩).2.2 = true ∧
    (SysState.RunLoop
        ⟨true, true, true, true, true, true, true, true, true, false, .Success⟩).1 =
      .ShutdownRequested ∧
    (SysState.RunLoop
        ⟨true, true, true, true, true, true, false, true, true, false, .Success⟩).1 =
      .Success ∧
    (SysState.RunLoop
        ⟨true, true, true, true, true, true, false, true, true, false,
          .Success⟩).2.1.shutdown_requested = true := by
  refine ⟨?_, ?_, ?_, ?_, ?_⟩ <;> decide

/-- C5, amended: the shutdown-requested flag is observed at the end of a
run-loop iteration.  Any iteration that reaches that check — i.e. one not
returning early because the CPU is uninitialized or audio output is
disallowed — returns `ShutdownRequested` in preference to its normal
status and consumes the flag, so no subsequent iteration (and hence no
further `Run()`) occurs once the caller tears the system down; but the
iteration in which the flag is observed may itself still perform one
`Run()` call, and early-returning iterations leave the flag pending. -/
theorem C5_shutdown_observed_at_iteration_end (s : SysState)
    (hcpu : s.cpu_core = true) (hdsp : s.dsp_output_allowed = true)
    (hreq : s.shutdown_requested = true) :
    (SysState.RunLoop s).1 = .ShutdownRequested ∧
    (SysState.RunLoop s).2.1.shutdown_requested = false := by
  cases hct : s.current_thread <;>
    simp [SysState.RunLoop, hcpu, hdsp, hreq, hct]

/-- C5, witness for the amended theorem at a fully running state. -/
theorem C5_witness :
    (⟨true, true, true, true, true, true, true, true, true, false,
        .Success⟩ : SysState).cpu_core = true ∧
    (⟨true, true, true, true, true, true, true, true, true, false,
        .Success⟩ : SysState).dsp_output_allowed = true ∧
    (⟨true, true, true, true, true, true, true, true, true, false,
        .Success⟩ : SysState).shutdown_requested = true ∧
    (SysState.RunLoop
        ⟨true, true, true, true, true, true, true, true, true, false, .Success⟩).1 =
      .ShutdownRequested ∧
    (SysState.RunLoop
        ⟨true, true, true, true, true, true, true, true, true, false,
          .Success⟩).2.1.shutdown_requested = false :=
  ⟨by decide, by decide, by decide,
   (C5_shutdown_observed_at_iteration_end _ (by decide) (by decide) (by decide)).1,
   (C5_shutdown_observed_at_iteration_end _ (by decide) (by decide) (by decide)).2⟩

/-- C6: loading a corrupt (invalid-format) image — whether the invalid
format is detected while determining the kernel system mode or while
loading the image after initialization — returns
`ErrorLoader_ErrorInvalidFormat`; the initialized subsystems (kernel, DSP,
service manager) are torn down before returning, `IsPoweredOn()` is false
afterwards, and a subsequent `RunLoop` refuses to execute with
`ErrorNotInitialized`, so guest execution never starts. -/
theorem C6_load_invalid_format (ld : AppLoader)
    (h : ld.system_mode_result = .ErrorInvalidFormat ∨
         (ld.system_mode_result = .Success ∧ ld.load_result = .ErrorInvalidFormat)) :
    (SysState.Load SysState.initial (some ld) .Success).1 =
      .ErrorLoader_ErrorInvalidFormat ∧
    SysState.IsPoweredOn (SysState.Load SysState.initial (some ld) .Success).2 = false ∧
    (SysState.Load SysState.initial (some ld) .Success).2.kernel = false ∧
    (SysState.Load SysState.initial (some ld) .Success).2.dsp_core = false ∧
    (SysState.Load SysState.initial (some ld) .Success).2.service_manager = false ∧
    (SysState.RunLoop (SysState.Load SysState.initial (some ld) .Success).2).1 =
      .ErrorNotInitialized := by
  obtain ⟨a, b⟩ := ld
  rcases h with h | ⟨h1, h2⟩
  · subst h
    refine ⟨rfl, rfl, rfl, rfl, rfl, rfl⟩
  · subst h1; subst h2
    refine ⟨rfl, rfl, rfl, rfl, rfl, rfl⟩

/-- C6, witness on the deeper path: system mode succeeds and the image
load itself reports the invalid format, forcing the teardown. -/
theorem C6_witness :
    ((⟨.Success, .ErrorInvalidFormat⟩ : AppLoader).system_mode_result = .ErrorInvalidFormat ∨
     ((⟨.Success, .ErrorInvalidFormat⟩ : AppLoader).system_mode_result = .Success ∧
      (⟨.Success, .ErrorInvalidFormat⟩ : AppLoader).load_result = .ErrorInvalidFormat)) ∧
    ((SysState.Load SysState.initial (some ⟨.Success, .ErrorInvalidFormat⟩) .Success).1 =
       .ErrorLoader_ErrorInvalidFormat ∧
     SysState.IsPoweredOn
       (SysState.Load SysState.initial (some ⟨.Success, .ErrorInvalidFormat⟩) .Success).2 =
       false ∧
     (SysState.Load SysState.initial (some ⟨.Success, .ErrorInvalidFormat⟩) .Success).2.kernel =
       false ∧
     (SysState.Load SysState.initial
        (some ⟨.Success, .ErrorInvalidFormat⟩) .Success).2.dsp_core = false ∧
     (SysState.Load SysState.initial
        (some ⟨.Success, .ErrorInvalidFormat⟩) .Success).2.service_manager = false ∧
     (SysState.RunLoop
        (SysState.Load SysState.initial (some ⟨.Success, .ErrorInvalidFormat⟩) .Success).2).1 =
       .ErrorNotInitialized) :=
  ⟨by decide, C6_load_invalid_format ⟨.Success, .ErrorInvalidFormat⟩ (by decide)⟩

/-- C7: `GetDowncount()` (per the clock contract) returns
`max(0, next_due_tick - current_tick)`, and the remaining-tick budget the
execution unit hands to the translator, `GetTicksRemaining`, clamps the
downcount: it equals `max(0, downcount)`, hence is never negative and
reports any non-positive downcount value as `0`. -/
theorem C7_ticks_remaining_clamped (next_due current d : Int) :
    GetDowncount next_due current = max 0 (next_due - current) ∧
    GetTicksRemaining d = max 0 d ∧
    0 ≤ GetTicksRemaining d := by
  refine ⟨rfl, ?_, ?_⟩ <;> (unfold GetTicksRemaining; split <;> omega)

/-- C8, counterexample.  Sequential `Create` calls on a fresh table repeat
a handle value after the 32-bit counter wraps: call number `1` and call
number `2^32 + 1` both return handle `1`, so for `N = 2^32 + 1` the `N`
returned handles are not pairwise distinct — refuting "for every N". -/
theorem C8_counterexample :
    HandleTable.nthHandle 0 = HandleTable.nthHandle 4294967296 ∧
    (0 : Nat) ≠ 4294967296 := by
  constructor
  · rw [HandleTable.nthHandle_eq, HandleTable.nthHandle_eq]
    decide
  · decide

/-- C8, amended: handle values come from the monotonically increasing
32-bit allocation counter, so the handles returned by the first `2^32`
sequential `Create` calls on a fresh table (with no intervening `Close`)
are pairwise distinct; distinctness is only lost once the counter wraps,
from call `2^32 + 1` on. -/
theorem C8_handles_distinct_below_wrap (i j : Nat)
    (hij : i ≠ j) (hi : i < 2^32) (hj : j < 2^32) :
    HandleTable.nthHandle i ≠ HandleTable.nthHandle j := by
  rw [HandleTable.nthHandle_eq, HandleTable.nthHandle_eq, two_pow_32_eq]
  rw [two_pow_32_eq] at hi hj
  show (i + 1) % 4294967296 ≠ (j + 1) % 4294967296
  omega

/-- C8, witness: the first two `Create` calls return distinct handles. -/
theorem C8_witness :
    (0 : Nat) ≠ 1 ∧ (0 : Nat) < 2^32 ∧ (1 : Nat) < 2^32 ∧
    HandleTable.nthHandle 0 ≠ HandleTable.nthHandle 1 :=
  ⟨by decide, by decide, by decide,
   C8_handles_distinct_below_wrap 0 1 (by decide) (by decide) (by decide)⟩

/-- C9: with the clock source set to host system time, the captured
boot-time origin is the host `time_t` advanced by `60 * 60 * 1000 =
3600000` seconds (about 41.7 days, not one hour) when `localtime` reports
daylight saving in effect; it is the unmodified host time when daylight
saving is not in effect (or `localtime` fails), and in fixed-time mode it
is exactly the configured constant. -/
theorem C9_init_time_dst_offset (now cfg d : Int) :
    (0 < d → GetInitTime .SystemTime now (some d) cfg = now + 3600000) ∧
    (d ≤ 0 → GetInitTime .SystemTime now (some d) cfg = now) ∧
    GetInitTime .SystemTime now none cfg = now ∧
    GetInitTime .FixedTime now (some d) cfg = cfg := by
  refine ⟨?_, ?_, rfl, rfl⟩
  · intro hd
    simp [GetInitTime, hd]
  · intro hd
    have : ¬ (0 < d) := by omega
    simp [GetInitTime, this]

/-- C9, witness: daylight saving in effect (`tm_isdst = 1`) at host time
`100`, and not in effect (`tm_isdst = 0`). -/
theorem C9_witness :
    (0 : Int) < 1 ∧ (0 : Int) ≤ 0 ∧
    GetInitTime .SystemTime 100 (some 1) 42 = 100 + 3600000 ∧
    GetInitTime .SystemTime 100 (some 0) 42 = 100 :=
  ⟨by decide, by decide,
   (C9_init_time_dst_offset 100 42 1).1 (by decide),
   (C9_init_time_dst_offset 100 42 0).2.1 (by decide)⟩

/-- C10: for the two reserved pseudo-handles, `GetGeneric` resolves
dynamically to the current thread/process of the execution context
regardless of the table contents, while `Close` on either pseudo-handle —
which `IsValid` reports absent, pseudo-handles never being stored —
returns `ERR_INVALID_HANDLE` and leaves the table unchanged. -/
theorem C10_pseudo_handles (ctx : KernelCtx) (t : HandleTable)
    (h1 : HandleTable.IsValid t CurrentThread = false)
    (h2 : HandleTable.IsValid t CurrentProcess = false) :
    HandleTable.GetGeneric ctx t CurrentThread = ctx.current_thread ∧
    HandleTable.GetGeneric ctx t CurrentProcess = ctx.current_process ∧
    HandleTable.Close t CurrentThread = (.ERR_INVALID_HANDLE, t) ∧
    HandleTable.Close t CurrentProcess = (.ERR_INVALID_HANDLE, t) := by
  refine ⟨rfl, ?_, ?_, ?_⟩
  · simp [HandleTable.GetGeneric, CurrentThread, CurrentProcess]
  · simp [HandleTable.Close, h1]
  · simp [HandleTable.Close, h2]

/-- C10, witness at an empty table with a live current thread and no
current process. -/
theorem C10_witness :
    HandleTable.IsValid HandleTable.fresh CurrentThread = false ∧
    HandleTable.IsValid HandleTable.fresh CurrentProcess = false ∧
    HandleTable.GetGeneric ⟨some 3, none⟩ HandleTable.fresh CurrentThread = some 3 ∧
    HandleTable.GetGeneric ⟨some 3, none⟩ HandleTable.fresh CurrentProcess = none ∧
    HandleTable.Close HandleTable.fresh CurrentThread =
      (.ERR_INVALID_HANDLE, HandleTable.fresh) ∧
    HandleTable.Close HandleTable.fresh CurrentProcess =
      (.ERR_INVALID_HANDLE, HandleTable.fresh) :=
  ⟨by decide, by decide,
   (C10_pseudo_handles ⟨some 3, none⟩ HandleTable.fresh (by decide) (by decide)).1,
   (C10_pseudo_handles ⟨some 3, none⟩ HandleTable.fresh (by decide) (by decide)).2.1,
   (C10_pseudo_handles ⟨some 3, none⟩ HandleTable.fresh (by decide) (by decide)).2.2.1,
   (C10_pseudo_handles ⟨some 3, none⟩ HandleTable.fresh (by decide) (by decide)).2.2.2⟩

end Citra
